import Mathlib

/-!
Verification of the Conan dependency manifest `conanfile.py`
(`class VulkanAppConan(ConanFile)`).

The manifest itself is embedded directly from the source.  The Conan
framework pieces it calls (`cmake_layout`, `CMakeToolchain`, `CMakeDeps`,
the package resolver and the profile store) are external collaborators
that are not part of the repository; they are modelled from the spec, and
each such definition is marked `Modelled from the spec:` in its doc
comment.
-/

/-- A parsed requirement reference: library name and version specifier. -/
structure Requirement where
  name : String
  version : String
deriving DecidableEq, Repr

/-- Parse a Conan reference string such as "glfw/3.4": the library name is
everything before the first slash, the version specifier everything after
it. -/
def parseRef (s : String) : Requirement :=
  { name := String.mk (s.toList.takeWhile (fun c => c ≠ '/')),
    version := String.mk ((s.toList.dropWhile (fun c => c ≠ '/')).drop 1) }

/-- Values chosen for the four build axes at invocation time. -/
structure SettingsTuple where
  os : String
  compiler : String
  build_type : String
  arch : String
deriving DecidableEq, Repr

/-- The per-invocation state of the ConanFile object: the externally
supplied settings values and the requirements declared so far via
`self.requires`. -/
structure ConanState where
  settingsValues : SettingsTuple
  requiresList : List Requirement
deriving DecidableEq, Repr

namespace VulkanAppConan

/-- Line 6 of the source: `settings = "os", "compiler", "build_type", "arch"`. -/
def settings : List String := ["os", "compiler", "build_type", "arch"]

/-- `self.requires(ref)`: appends the parsed reference to the declared
requirements list. -/
def requires (st : ConanState) (ref : String) : ConanState :=
  { st with requiresList := st.requiresList ++ [parseRef ref] }

/-- The `requirements` method of the source:
`self.requires("glfw/3.4")` then `self.requires("glm/cci.20230113")`. -/
def requirements (st : ConanState) : ConanState :=
  requires (requires st ("glfw/3.4")) ("glm/cci.20230113")

end VulkanAppConan

/-- The layout conventions offered by the Conan framework; the source
imports and uses only the CMake one. -/
inductive LayoutKind
  | cmake
deriving DecidableEq, Repr

/-- An argument passed to a layout convention call. -/
inductive LayoutArg
  | selfManifest
deriving DecidableEq, Repr

/-- A recorded invocation of a layout convention: which convention, and
which arguments were passed. -/
structure LayoutCall where
  kind : LayoutKind
  args : List LayoutArg
deriving DecidableEq, Repr

namespace VulkanAppConan

/-- The `layout` method of the source: `cmake_layout(self)` — the CMake
convention, applied to the manifest itself and nothing else; the state is
left untouched. -/
def layout (st : ConanState) : ConanState × LayoutCall :=
  (st, { kind := LayoutKind.cmake, args := [LayoutArg.selfManifest] })

end VulkanAppConan

/-- Modelled from the spec: the placement the CMake layout convention
selects for generated files, relative to the source/build directories.
It is keyed by the settings values only (the build type selects the
variant folder); the requirements list plays no role. -/
def cmake_layout_generatorsFolder (s : SettingsTuple) : String :=
  "build/" ++ s.build_type ++ "/generators"

/-- Modelled from the spec: the environment the external package manager
supplies at invocation time — the available build profiles and the
available packages. -/
structure Env where
  profiles : List SettingsTuple
  packages : List Requirement
deriving DecidableEq, Repr

/-- The error taxonomy of the spec. -/
inductive GenError
  | UnresolvedDependency
  | UnsupportedSettings
  | FilesystemWriteFailure
deriving DecidableEq, Repr

/-- Modelled from the spec: a requirement's version constraint is
satisfiable when some available package has that name and version. -/
def satisfiable (env : Env) (r : Requirement) : Prop :=
  r ∈ env.packages

instance (env : Env) (r : Requirement) : Decidable (satisfiable env r) :=
  inferInstanceAs (Decidable (r ∈ env.packages))

/-- A resolved entry of the dependency-resolution description: the
library identifier together with its locally resolved locations. -/
structure ResolvedEntry where
  libname : String
  version : String
  includePath : String
  libPath : String
  linkName : String
deriving DecidableEq, Repr

/-- Modelled from the spec: the external resolver maps a requirement to
concrete, locally resolved library locations for the current settings
combination. -/
def resolveEntry (s : SettingsTuple) (r : Requirement) : ResolvedEntry :=
  { libname := r.name
    version := r.version
    includePath := r.name ++ "/" ++ r.version ++ "/include"
    libPath := r.name ++ "/" ++ r.version ++ "/lib/" ++ s.build_type
    linkName := r.name }

/-- The two categories of artifacts the generators emit. -/
inductive ArtifactKind
  | toolchain
  | deps
deriving DecidableEq, Repr

/-- A generated output file: its category, its path (determined by the
layout convention) and its byte content. -/
structure OutputFile where
  kind : ArtifactKind
  path : String
  content : String
deriving DecidableEq, Repr

/-- Modelled from the spec: the toolchain description is a deterministic
rendering of the compiler/platform settings. -/
def toolchainContent (s : SettingsTuple) : String :=
  "os=" ++ s.os ++ ";compiler=" ++ s.compiler ++
    ";build_type=" ++ s.build_type ++ ";arch=" ++ s.arch

/-- Rendering of one resolved entry of the dependency-resolution
description. -/
def renderEntry (e : ResolvedEntry) : String :=
  e.libname ++ "@" ++ e.version ++ ":" ++ e.includePath ++ ":" ++
    e.libPath ++ ":" ++ e.linkName

/-- Modelled from the spec: the dependency-resolution description lists
one resolved entry per declared requirement. -/
def depsEntries (st : ConanState) : List ResolvedEntry :=
  st.requiresList.map (resolveEntry st.settingsValues)

/-- Byte content of the dependency-resolution description. -/
def depsContent (es : List ResolvedEntry) : String :=
  String.intercalate ("\n") (es.map renderEntry)

/-- The toolchain description file `CMakeToolchain(self).generate()`
emits (modelled from the spec; the path follows the layout convention). -/
def toolchainFile (st : ConanState) : OutputFile :=
  { kind := ArtifactKind.toolchain
    path := cmake_layout_generatorsFolder st.settingsValues ++ "/conan_toolchain.cmake"
    content := toolchainContent st.settingsValues }

/-- The dependency-resolution file `CMakeDeps(self).generate()` emits
(modelled from the spec; the path follows the layout convention). -/
def depsFile (st : ConanState) : OutputFile :=
  { kind := ArtifactKind.deps
    path := cmake_layout_generatorsFolder st.settingsValues ++ "/conandeps.cmake"
    content := depsContent (depsEntries st) }

/-- The filesystem output location: a partial map from paths to file
contents. -/
def FS : Type := String → Option String

/-- Writing a file: the new content replaces whatever was at that path. -/
def fswrite (fs : FS) (p c : String) : FS :=
  fun q => if q = p then some c else fs q

/-- The empty filesystem output location. -/
def emptyFS : FS := fun _ => none

/-- Modelled from the spec: the diagnostics a generation run fails with —
`UnsupportedSettings` when the settings tuple has no matching build
profile, `UnresolvedDependency` when some requirement's version
constraint cannot be satisfied by any available package. -/
def genErrors (env : Env) (st : ConanState) : List GenError :=
  (if st.settingsValues ∈ env.profiles then [] else [GenError.UnsupportedSettings]) ++
    (if ∀ r ∈ st.requiresList, satisfiable env r then [] else [GenError.UnresolvedDependency])

/-- The result of one generation run: the manifest state as the run left
it, the filesystem output location, the artifacts emitted in order, and
the errors surfaced to the invoking tool. -/
structure GenResult where
  state : ConanState
  fs : FS
  outputs : List OutputFile
  errors : List GenError

/-- The `generate` method of the source: `CMakeToolchain(self).generate()`
followed by `CMakeDeps(self).generate()`.  On success the toolchain
description is written first and the dependency-resolution description
second; on failure the diagnostics are surfaced unchanged and nothing is
written. -/
def generate (env : Env) (st : ConanState) (fs : FS) : GenResult :=
  if genErrors env st = [] then
    { state := st
      fs := fswrite (fswrite fs (toolchainFile st).path (toolchainFile st).content)
        (depsFile st).path (depsFile st).content
      outputs := [toolchainFile st, depsFile st]
      errors := [] }
  else
    { state := st, fs := fs, outputs := [], errors := genErrors env st }

/-- Modelled from the spec: configuration variants are keyed by the
values of the declared build axes, in declaration order. -/
def configKey (s : SettingsTuple) : List (String × String) :=
  [("os", s.os), ("compiler", s.compiler), ("build_type", s.build_type), ("arch", s.arch)]

/-- A sample settings tuple used to exercise the theorems on concrete
input. -/
def sampleSettings : SettingsTuple :=
  { os := "Linux", compiler := "gcc", build_type := "Release", arch := "x86_64" }

/-- A sample environment whose profiles support the sample settings and
whose package store stocks both declared libraries. -/
def sampleEnv : Env :=
  { profiles := [sampleSettings]
    packages := [{ name := "glfw", version := "3.4" },
                 { name := "glm", version := "cci.20230113" }] }

/-- The manifest state of the repository after its requirements have been
declared. -/
def sampleManifest : ConanState :=
  VulkanAppConan.requirements { settingsValues := sampleSettings, requiresList := [] }

/-- Re-writing the same two files with the same contents leaves the
filesystem unchanged: the later write of each path wins and carries
identical bytes. -/
theorem fswrite_rewrite (fs : FS) (p₁ c₁ p₂ c₂ : String) :
    fswrite (fswrite (fswrite (fswrite fs p₁ c₁) p₂ c₂) p₁ c₁) p₂ c₂ =
      fswrite (fswrite fs p₁ c₁) p₂ c₂ := by
  funext q
  by_cases h2 : q = p₂
  · simp [fswrite, h2]
  · by_cases h1 : q = p₁ <;> simp [fswrite, h1, h2]

/-- On a successful run the error-free branch of `generate` was taken. -/
theorem genErrors_eq_nil_of_success (env : Env) (st : ConanState) (fs : FS)
    (h : (generate env st fs).errors = []) : genErrors env st = [] := by
  by_contra hne
  rw [generate, if_neg hne] at h
  exact hne h

/-- Claim C1: for a fixed Manifest and fixed settings, generation is
idempotent — a second run returns exactly the first run's result, so the
toolchain description and the dependency-resolution description on disk
are byte-identical to the first run's. -/
theorem generate_idempotent (env : Env) (st : ConanState) (fs : FS)
    (h : (generate env st fs).errors = []) :
    generate env st (generate env st fs).fs = generate env st fs := by
  have hg : genErrors env st = [] := genErrors_eq_nil_of_success env st fs h
  simp only [generate, hg, if_pos]
  rw [fswrite_rewrite]

/-- Claim C2: the requirements operation declares exactly the ordered
pairs ("glfw", "3.4") then ("glm", "cci.20230113"), and nothing else. -/
theorem requirements_exact (s : SettingsTuple) :
    (VulkanAppConan.requirements { settingsValues := s, requiresList := [] }).requiresList =
      [{ name := "glfw", version := "3.4" },
       { name := "glm", version := "cci.20230113" }] := rfl

/-- Claim C3: when the settings tuple is absent from the available build
profiles, generation fails with `UnsupportedSettings`, emits no output
artifact, and the filesystem output location is unchanged. -/
theorem generate_unsupported_settings (env : Env) (st : ConanState) (fs : FS)
    (h : st.settingsValues ∉ env.profiles) :
    GenError.UnsupportedSettings ∈ (generate env st fs).errors ∧
      (generate env st fs).fs = fs ∧ (generate env st fs).outputs = [] := by
  have hg : genErrors env st =
      GenError.UnsupportedSettings ::
        (if ∀ r ∈ st.requiresList, satisfiable env r then []
         else [GenError.UnresolvedDependency]) := by
    rw [genErrors, if_neg h]
    rfl
  have hne : genErrors env st ≠ [] := by
    rw [hg]
    exact List.cons_ne_nil _ _
  rw [generate, if_neg hne]
  exact ⟨by rw [hg] at hne ⊢; exact List.mem_cons_self _ _, rfl, rfl⟩

/-- Witness for claim C3 at a concrete input: an environment with no
profiles at all. -/
theorem generate_unsupported_settings_witness :
    sampleManifest.settingsValues ∉ (Env.mk [] sampleEnv.packages).profiles ∧
      (GenError.UnsupportedSettings ∈
          (generate (Env.mk [] sampleEnv.packages) sampleManifest emptyFS).errors ∧
        (generate (Env.mk [] sampleEnv.packages) sampleManifest emptyFS).fs = emptyFS ∧
        (generate (Env.mk [] sampleEnv.packages) sampleManifest emptyFS).outputs = []) :=
  ⟨by decide, generate_unsupported_settings (Env.mk [] sampleEnv.packages) sampleManifest emptyFS
    (by decide)⟩

/-- Claim C4: generation reports `UnresolvedDependency` exactly when some
declared requirement's version constraint is unsatisfiable, and the
diagnostics are surfaced to the invoking tool unchanged — no retry, no
fallback, no local recovery. -/
theorem unresolved_dependency_exact (env : Env) (st : ConanState) (fs : FS) :
    (GenError.UnresolvedDependency ∈ (generate env st fs).errors ↔
      ¬ ∀ r ∈ st.requiresList, satisfiable env r) ∧
      (generate env st fs).errors = genErrors env st := by
  have hsurf : (generate env st fs).errors = genErrors env st := by
    rw [generate]
    split
    case isTrue hh => rw [hh]
    case isFalse => rfl
  refine ⟨?_, hsurf⟩
  rw [hsurf, genErrors]
  by_cases hp : st.settingsValues ∈ env.profiles <;>
    by_cases hr : ∀ r ∈ st.requiresList, satisfiable env r <;>
      simp [hp, hr]

/-- A string append is nonempty whenever its left part is. -/
theorem slen_pos_left (a b : String) (h : 0 < a.length) : 0 < (a ++ b).length := by
  rw [String.length_append]
  omega

/-- Claim C5: on a successful run every declared requirement has a
resolved entry in the dependency-resolution description, the description
is among the emitted artifacts, there is exactly one entry per
requirement, and for the repository manifest (two requirements) there
are exactly two entries with every field populated. -/
theorem generate_resolves_requirements (env : Env) (st : ConanState) (fs : FS)
    (h : (generate env st fs).errors = []) :
    (∀ r ∈ st.requiresList, ∃ e ∈ depsEntries st, e.libname = r.name ∧ e.version = r.version) ∧
      depsFile st ∈ (generate env st fs).outputs ∧
      (depsEntries st).length = st.requiresList.length ∧
      ∀ s : SettingsTuple,
        (depsEntries (VulkanAppConan.requirements { settingsValues := s, requiresList := [] }) =
          [resolveEntry s { name := "glfw", version := "3.4" },
           resolveEntry s { name := "glm", version := "cci.20230113" }]) ∧
        ∀ e ∈ depsEntries (VulkanAppConan.requirements { settingsValues := s, requiresList := [] }),
          0 < e.libname.length ∧ 0 < e.version.length ∧ 0 < e.includePath.length ∧
            0 < e.libPath.length ∧ 0 < e.linkName.length := by
  have hg : genErrors env st = [] := genErrors_eq_nil_of_success env st fs h
  refine ⟨?_, ?_, ?_, ?_⟩
  · intro r hr
    exact ⟨resolveEntry st.settingsValues r, List.mem_map_of_mem _ hr, rfl, rfl⟩
  · rw [generate, if_pos hg]
    exact List.mem_cons_of_mem _ (List.mem_cons_self _ _)
  · exact List.length_map _ _
  · intro s
    refine ⟨rfl, ?_⟩
    intro e he
    have he₁ : e ∈ [resolveEntry s { name := "glfw", version := "3.4" },
        resolveEntry s { name := "glm", version := "cci.20230113" }] := he
    rcases List.mem_cons.mp he₁ with rfl | he₂
    · exact ⟨Nat.succ_pos _, Nat.succ_pos _, Nat.succ_pos _,
        slen_pos_left _ _ (Nat.succ_pos _), Nat.succ_pos _⟩
    rcases List.mem_cons.mp he₂ with rfl | he₃
    · exact ⟨Nat.succ_pos _, Nat.succ_pos _, Nat.succ_pos _,
        slen_pos_left _ _ (Nat.succ_pos _), Nat.succ_pos _⟩
    exact absurd he₃ (List.not_mem_nil _)

/-- Claim C6: on a successful run the artifacts are, in order, the
toolchain description then the dependency-resolution description, each
emitted exactly once; the artifacts do not depend on the prior state of
the filesystem output location. -/
theorem generate_two_artifacts (env : Env) (st : ConanState) (fs : FS)
    (h : (generate env st fs).errors = []) :
    (generate env st fs).outputs = [toolchainFile st, depsFile st] ∧
      (generate env st fs).outputs.map OutputFile.kind =
        [ArtifactKind.toolchain, ArtifactKind.deps] ∧
      ∀ fs₂ : FS, (generate env st fs₂).outputs = (generate env st fs).outputs := by
  have hg : genErrors env st = [] := genErrors_eq_nil_of_success env st fs h
  refine ⟨by rw [generate, if_pos hg], ?_, ?_⟩
  · rw [generate, if_pos hg]
    rfl
  · intro fs₂
    rw [generate, if_pos hg, generate, if_pos hg]

/-- Claim C7: the settings attribute lists precisely the four build axes,
in order, without repetition, and configuration variants are keyed by
exactly these axes. -/
theorem settings_four_axes :
    VulkanAppConan.settings = ["os", "compiler", "build_type", "arch"] ∧
      VulkanAppConan.settings.length = 4 ∧
      VulkanAppConan.settings.Nodup ∧
      ∀ s : SettingsTuple, (configKey s).map Prod.fst = VulkanAppConan.settings :=
  ⟨rfl, rfl, by decide, fun _ => rfl⟩

/-- Claim C8: no operation mutates the manifest — layout and generate
return the state they were given, requirements never touches the settings
values, and the generate step of a build invocation observes exactly the
state the requirements step constructed. -/
theorem manifest_immutable (env : Env) (st : ConanState) (fs : FS) :
    (VulkanAppConan.layout st).1 = st ∧
      (generate env st fs).state = st ∧
      (VulkanAppConan.requirements st).settingsValues = st.settingsValues ∧
      (generate env (VulkanAppConan.layout (VulkanAppConan.requirements st)).1 fs).state =
        VulkanAppConan.requirements st := by
  have hgen : ∀ st₂ : ConanState, (generate env st₂ fs).state = st₂ := by
    intro st₂
    rw [generate]
    split <;> rfl
  exact ⟨rfl, hgen st, rfl, hgen _⟩

/-- Claim C9: the layout operation invokes the CMake convention with the
manifest itself as the only argument, and the placement of both generated
files is independent of the requirements list. -/
theorem layout_cmake_convention (st : ConanState) (s : SettingsTuple)
    (reqs₁ reqs₂ : List Requirement) :
    (VulkanAppConan.layout st).2 =
        { kind := LayoutKind.cmake, args := [LayoutArg.selfManifest] } ∧
      (toolchainFile { settingsValues := s, requiresList := reqs₁ }).path =
        (toolchainFile { settingsValues := s, requiresList := reqs₂ }).path ∧
      (depsFile { settingsValues := s, requiresList := reqs₁ }).path =
        (depsFile { settingsValues := s, requiresList := reqs₂ }).path :=
  ⟨rfl, rfl, rfl⟩

/-- Claim C10: the declared requirements are independent of the settings
tuple — any two settings tuples yield the same two pairs in the same
order, appended to whatever was declared before. -/
theorem requirements_settings_independent (s₁ s₂ : SettingsTuple) (reqs : List Requirement) :
    (VulkanAppConan.requirements { settingsValues := s₁, requiresList := reqs }).requiresList =
        (VulkanAppConan.requirements { settingsValues := s₂, requiresList := reqs }).requiresList ∧
      (VulkanAppConan.requirements { settingsValues := s₁, requiresList := reqs }).requiresList =
        reqs ++ [{ name := "glfw", version := "3.4" },
                 { name := "glm", version := "cci.20230113" }] := by
  refine ⟨rfl, ?_⟩
  show (reqs ++ [parseRef ("glfw/3.4")]) ++ [parseRef ("glm/cci.20230113")] = _
  rw [List.append_assoc]
  rfl

/-- Witness for claim C1 at a concrete input: the sample environment, the
repository manifest and an empty filesystem. -/
theorem generate_idempotent_witness :
    (generate sampleEnv sampleManifest emptyFS).errors = [] ∧
      generate sampleEnv sampleManifest (generate sampleEnv sampleManifest emptyFS).fs =
        generate sampleEnv sampleManifest emptyFS :=
  ⟨by decide, generate_idempotent sampleEnv sampleManifest emptyFS (by decide)⟩

/-- Witness for claim C5 at a concrete input: the sample environment, the
repository manifest and an empty filesystem. -/
theorem generate_resolves_requirements_witness :
    (generate sampleEnv sampleManifest emptyFS).errors = [] ∧
      ((∀ r ∈ sampleManifest.requiresList,
          ∃ e ∈ depsEntries sampleManifest, e.libname = r.name ∧ e.version = r.version) ∧
        depsFile sampleManifest ∈ (generate sampleEnv sampleManifest emptyFS).outputs ∧
        (depsEntries sampleManifest).length = sampleManifest.requiresList.length ∧
        ∀ s : SettingsTuple,
          (depsEntries (VulkanAppConan.requirements { settingsValues := s, requiresList := [] }) =
            [resolveEntry s { name := "glfw", version := "3.4" },
             resolveEntry s { name := "glm", version := "cci.20230113" }]) ∧
          ∀ e ∈ depsEntries
              (VulkanAppConan.requirements { settingsValues := s, requiresList := [] }),
            0 < e.libname.length ∧ 0 < e.version.length ∧ 0 < e.includePath.length ∧
              0 < e.libPath.length ∧ 0 < e.linkName.length) :=
  ⟨by decide, generate_resolves_requirements sampleEnv sampleManifest emptyFS (by decide)⟩

/-- Witness for claim C6 at a concrete input: the sample environment, the
repository manifest and an empty filesystem. -/
theorem generate_two_artifacts_witness :
    (generate sampleEnv sampleManifest emptyFS).errors = [] ∧
      ((generate sampleEnv sampleManifest emptyFS).outputs =
          [toolchainFile sampleManifest, depsFile sampleManifest] ∧
        (generate sampleEnv sampleManifest emptyFS).outputs.map OutputFile.kind =
          [ArtifactKind.toolchain, ArtifactKind.deps] ∧
        ∀ fs₂ : FS,
          (generate sampleEnv sampleManifest fs₂).outputs =
            (generate sampleEnv sampleManifest emptyFS).outputs) :=
  ⟨by decide, generate_two_artifacts sampleEnv sampleManifest emptyFS (by decide)⟩
